import Mathlib

/-!
Verification development for the ECS agent task state-machine engine and
host resource admission controller.

The definitions below are a shallow embedding of the Go sources:
* `src/agent/api/statechange.go` (state-change event construction),
* `src/agent/vendor/.../ecs-agent/utils/utils.go` (`AddScheme`),
* and, for the parts of the engine whose implementation is only exercised by
  the integration tests in `src/agent/engine/engine_unix_integ_test.go`
  (host resource manager, waiting queue, dependency gating), a model built
  from the specification's contracts, with behavior pinned by those tests.

Go strings are Lean `String` (or `List Char` where prefix reasoning is
needed), Go `(value, error)` returns are `Except`, and Go enum constants
are inductive types with an explicit `toNat` numbering.
-/

namespace EcsAgent

/-- Container status enumeration, mirroring
`ecs-agent/api/container/status`: NONE, MANIFEST_PULLED, PULLED, CREATED,
RUNNING, RESOURCES_PROVISIONED, STOPPED (ordered by `toNat`). -/
inductive ContainerStatus where
  | statusNone
  | manifestPulled
  | pulled
  | created
  | running
  | resourcesProvisioned
  | stopped
  deriving Repr, DecidableEq

/-- Numeric value of a container status, giving the total order used by
Go's `>=` comparison on the status enum. -/
def ContainerStatus.toNat : ContainerStatus → Nat
  | .statusNone => 0
  | .manifestPulled => 1
  | .pulled => 2
  | .created => 3
  | .running => 4
  | .resourcesProvisioned => 5
  | .stopped => 6

/-- Task status enumeration, mirroring `ecs-agent/api/task/status`:
NONE, MANIFEST_PULLED, PULLED, CREATED, RUNNING, STOPPED. -/
inductive TaskStatus where
  | statusNone
  | manifestPulled
  | pulled
  | created
  | running
  | stopped
  deriving Repr, DecidableEq

/-- Numeric value of a task status, giving the total order used by Go's
`>=` comparison on the status enum. -/
def TaskStatus.toNat : TaskStatus → Nat
  | .statusNone => 0
  | .manifestPulled => 1
  | .pulled => 2
  | .created => 3
  | .running => 4
  | .stopped => 5

/-- Modelled from the spec: `BackendRecognized()` of the StatusSet
component (spec section 4.1); the task statuses the backend recognizes are
RUNNING and STOPPED (the status-recognition guard in
`NewTaskStateChangeEvent` special-cases MANIFEST_PULLED separately, so
MANIFEST_PULLED is not in this set). The implementation of this predicate
is not under `src/`. -/
def TaskStatus.backendRecognized : TaskStatus → Bool
  | .running => true
  | .stopped => true
  | _ => false

/-- Modelled from the spec: `ShouldReportToBackend(steadyState)` of the
StatusSet component (spec section 4.1); a container status is reportable
when it equals the container's steady-state status or is STOPPED. The
implementation of this predicate is not under `src/`. -/
def ContainerStatus.shouldReportToBackend
    (cs steadyStateStatus : ContainerStatus) : Bool :=
  cs == steadyStateStatus || cs == ContainerStatus.stopped

/-- Dependency conditions a container may declare on another container
(spec section 3: START, COMPLETE, SUCCESS, HEALTHY). -/
inductive DependencyCondition where
  | start
  | complete
  | success
  | healthy
  deriving Repr, DecidableEq

/-- A declared dependency of one container on another (spec section 3). -/
structure ContainerDependency where
  containerName : String
  condition : DependencyCondition
  deriving Repr, DecidableEq

/-- Host port binding of a container, mirroring the fields of
`apicontainer.PortBinding` used by `statechange.go`. -/
structure PortBinding where
  containerPort : Nat
  hostPort : Nat
  bindIP : String
  protocol : String
  deriving Repr, DecidableEq

/-- Container model: the fields of `apicontainer.Container` read by the
code under verification (via its synchronized accessors). -/
structure Container where
  name : String
  isInternal : Bool
  knownStatus : ContainerStatus
  sentStatus : ContainerStatus
  steadyStateStatus : ContainerStatus
  imageDigest : String
  runtimeID : String
  exitCode : Option Int
  applyingErrorMsg : Option String
  portBindings : List PortBinding
  containerPortSet : List Nat
  containerPortRangeMap : List (String × String)
  dependsOn : List ContainerDependency
  healthy : Bool
  essential : Bool
  deriving Repr, DecidableEq

/-- Modelled from the spec: `Container.DigestResolved()` (not under
`src/`) — whether the container's image manifest digest has been resolved,
i.e. the recorded digest is non-empty. -/
def Container.digestResolved (c : Container) : Bool :=
  c.imageDigest != ""

/-- Modelled from the spec: `Container.HasPortRange()` (not under `src/`)
— whether the container requested at least one container port range, i.e.
its container-port-range map is non-empty. -/
def Container.hasPortRange (c : Container) : Bool :=
  c.containerPortRangeMap.length != 0

/-- Task model: the fields of `apitask.Task` read by the code under
verification (via its synchronized accessors). Timestamps are modelled as
`Nat` with `0` for Go's zero time. -/
structure Task where
  arn : String
  isInternal : Bool
  knownStatus : TaskStatus
  sentStatus : TaskStatus
  containers : List Container
  serviceConnectEnabled : Bool
  networkModeBridge : Bool
  launchType : String
  cpu : Nat
  memory : Nat
  pullStartedAt : Nat
  pullStoppedAt : Nat
  executionStoppedAt : Nat
  deriving Repr, DecidableEq

/-- Modelled from the spec: `Task.HasAContainerWithResolvedDigest()` (not
under `src/`) — true when at least one container of the task has a
resolved image digest (spec section 4.6 step 2). -/
def Task.hasAContainerWithResolvedDigest (t : Task) : Bool :=
  t.containers.any (fun c => c.digestResolved)

/-- The name of the network pause container paired with a task container
in bridge-mode service connect. -/
def networkPauseContainerName : String := "~internal~ecs~pause"

/-- Modelled from the spec:
`Task.GetBridgeModePauseContainerForTaskContainer` (not under `src/`) —
looks up the pause container named `~internal~ecs~pause-<name>` among the
task's containers. -/
def Task.getBridgeModePauseContainerForTaskContainer
    (t : Task) (c : Container) : Option Container :=
  t.containers.find? (fun p => p.name == networkPauseContainerName ++ "-" ++ c.name)

/-- Errors returned by the event constructors in `statechange.go`:
`ErrShouldNotSendEvent` (carrying a resource id / message) versus the
generic errors built with `errors.Errorf` / `fmt.Errorf`. -/
inductive StateChangeError where
  | shouldNotSend (resourceId : String)
  | generic (msg : String)
  deriving Repr, DecidableEq

/-- `TaskStateChange` event (the fields of the Go struct populated by
`NewTaskStateChangeEvent`; the back-pointer to the task is kept as a
copy of the task value). -/
structure TaskStateChange where
  taskARN : String
  status : TaskStatus
  reason : String
  task : Task
  pullStartedAt : Option Nat
  pullStoppedAt : Option Nat
  executionStoppedAt : Option Nat
  deriving Repr, DecidableEq

/-- `ContainerStateChange` event (the fields of the Go struct populated by
`newUncheckedContainerStateChangeEvent`). -/
structure ContainerStateChange where
  taskArn : String
  runtimeID : String
  containerName : String
  status : ContainerStatus
  imageDigest : String
  reason : String
  exitCode : Option Int
  portBindings : List PortBinding
  container : Container
  deriving Repr, DecidableEq

/-- `SetTaskTimestamps` from `statechange.go`: copy each non-zero task
timestamp into the event. -/
def setTaskTimestamps (change : TaskStateChange) : TaskStateChange :=
  { change with
    pullStartedAt := if change.task.pullStartedAt != 0 then some change.task.pullStartedAt else none
    pullStoppedAt := if change.task.pullStoppedAt != 0 then some change.task.pullStoppedAt else none
    executionStoppedAt :=
      if change.task.executionStoppedAt != 0 then some change.task.executionStoppedAt else none }

/-- `NewTaskStateChangeEvent` from `statechange.go`: builds a task
state-change event, or returns an error when the state change does not
need to be sent to the backend. Go's `(event, err)` with non-nil `err`
(and zero-value event) is modelled as `Except.error`. -/
def NewTaskStateChangeEvent (task : Task) (reason : String) :
    Except StateChangeError TaskStateChange :=
  if task.isInternal then
    .error (.shouldNotSend task.arn)
  else
    let taskKnownStatus := task.knownStatus
    if taskKnownStatus != TaskStatus.manifestPulled && !taskKnownStatus.backendRecognized then
      .error (.generic "create task state change event api: status not recognized by ECS")
    else if task.sentStatus.toNat ≥ taskKnownStatus.toNat then
      .error (.generic "create task state change event api: status already sent")
    else if taskKnownStatus == TaskStatus.manifestPulled
        && !task.hasAContainerWithResolvedDigest then
      .error (.shouldNotSend
        "create task state change event api: status MANIFEST_PULLED not eligible for backend reporting as no digests were resolved")
    else
      .ok (setTaskTimestamps
        { taskARN := task.arn
          status := taskKnownStatus
          reason := reason
          task := task
          pullStartedAt := none
          pullStoppedAt := none
          executionStoppedAt := none })

/-- `containerStatusChangeStatus` from `statechange.go`: maps a container
known status to the status carried by a `ContainerStateChange`. Go's
`switch` matches the `case steadyStateStatus` arm first. -/
def containerStatusChangeStatus
    (knownStatus steadyStateStatus : ContainerStatus) : ContainerStatus :=
  if knownStatus == steadyStateStatus then
    ContainerStatus.running
  else if knownStatus == ContainerStatus.manifestPulled then
    ContainerStatus.manifestPulled
  else if knownStatus == ContainerStatus.stopped then
    ContainerStatus.stopped
  else
    ContainerStatus.statusNone

/-- `newUncheckedContainerStateChangeEvent` from `statechange.go`:
constructs the event payload (rejecting internal containers, resolving the
pause container's port bindings for bridge-mode service connect). -/
def newUncheckedContainerStateChangeEvent
    (task : Task) (cont : Container) (reason : String) :
    Except StateChangeError ContainerStateChange :=
  if cont.isInternal then
    .error (.shouldNotSend cont.name)
  else
    let resolvedBindings :
        Except StateChangeError (List PortBinding) :=
      if task.serviceConnectEnabled && task.networkModeBridge then
        match task.getBridgeModePauseContainerForTaskContainer cont with
        | some pauseCont => .ok pauseCont.portBindings
        | none => .error (.generic
            "error resolving pause container for bridge mode SC container")
      else
        .ok cont.portBindings
    match resolvedBindings with
    | .error e => .error e
    | .ok portBindings =>
        .ok { taskArn := task.arn
              containerName := cont.name
              runtimeID := cont.runtimeID
              status := containerStatusChangeStatus cont.knownStatus cont.steadyStateStatus
              exitCode := cont.exitCode
              portBindings := portBindings
              imageDigest := cont.imageDigest
              reason := reason
              container := cont }

/-- `NewContainerStateChangeEvent` from `statechange.go`: builds a
container state-change event, or returns an error when the state change
does not need to be sent to the backend. -/
def NewContainerStateChangeEvent (task : Task) (cont : Container) (reason : String) :
    Except StateChangeError ContainerStateChange :=
  match newUncheckedContainerStateChangeEvent task cont reason with
  | .error e => .error e
  | .ok event =>
      let contKnownStatus := cont.knownStatus
      if contKnownStatus != ContainerStatus.manifestPulled
          && !contKnownStatus.shouldReportToBackend cont.steadyStateStatus then
        .error (.shouldNotSend
          "create container state change event api: status not recognized by ECS")
      else if contKnownStatus == ContainerStatus.manifestPulled && !cont.digestResolved then
        .error (.shouldNotSend
          "create container state change event api: no need to send MANIFEST_PULLED event as no resolved digests were found")
      else if cont.sentStatus.toNat ≥ contKnownStatus.toNat then
        .error (.shouldNotSend
          "create container state change event api: status already sent")
      else if reason == "" && cont.applyingErrorMsg.isSome then
        .ok { event with reason := cont.applyingErrorMsg.getD "" }
      else
        .ok event

/-- Whether an `Except` result is an error. -/
def isErr {ε α : Type} : Except ε α → Bool
  | .error _ => true
  | .ok _ => false

/-- Whether an `Except` result is specifically an `ErrShouldNotSendEvent`
error. -/
def isShouldNotSendErr {α : Type} : Except StateChangeError α → Bool
  | .error (.shouldNotSend _) => true
  | _ => false

/-- `ecsMaxNetworkBindingsLength` from `statechange.go`: maximum length of
the network-bindings list sent as part of the container state change
payload, enforced only when container port ranges are requested. -/
def ecsMaxNetworkBindingsLength : Nat := 100

/-- `ProtocolBindIP` from `statechange.go`: the protocol and bind-IP
information associated to a host port of a port range. -/
structure ProtocolBindIP where
  protocol : String
  bindIP : String
  deriving Repr, DecidableEq

/-- A network binding as placed in the backend payload
(`types.NetworkBinding`): either a singular binding (container port and
host port) or a consolidated binding for a port range. -/
structure NetworkBinding where
  bindIP : Option String
  containerPort : Option Nat
  hostPort : Option Nat
  containerPortRange : Option String
  hostPortRange : Option String
  protocol : String
  deriving Repr, DecidableEq

/-- The backend container state change payload
(`types.ContainerStateChange`), with the fields set by
`buildContainerStateChangePayload`. -/
structure ContainerStateChangePayload where
  containerName : Option String
  runtimeId : Option String
  reason : Option String
  imageDigest : Option String
  status : Option String
  exitCode : Option Int
  networkBindings : List NetworkBinding
  deriving Repr, DecidableEq

/-- Modelled from the spec: the container status string sent to the
backend (`BackendStatusString`, not under `src/`): RUNNING and STOPPED by
name, everything else PENDING. Not load-bearing for any claim. -/
def ContainerStatus.backendStatusString : ContainerStatus → String
  | .running => "RUNNING"
  | .stopped => "STOPPED"
  | _ => "PENDING"

/-- Appends a `ProtocolBindIP` to the entry of `hostPort` in the
host-port map (Go: `map[int64][]ProtocolBindIP` with `append`). The map is
modelled as an association list in insertion order. -/
def addToHostPortMap (m : List (Nat × List ProtocolBindIP)) (hostPort : Nat)
    (v : ProtocolBindIP) : List (Nat × List ProtocolBindIP) :=
  match m with
  | [] => [(hostPort, [v])]
  | (k, vs) :: rest =>
      if k == hostPort then (k, vs ++ [v]) :: rest
      else (k, vs) :: addToHostPortMap rest hostPort v

/-- Looks up a host port in the host-port map. -/
def lookupHostPortMap (m : List (Nat × List ProtocolBindIP)) (hostPort : Nat) :
    Option (List ProtocolBindIP) :=
  match m.find? (fun p => p.1 == hostPort) with
  | some p => some p.2
  | none => none

/-- `nat.ParsePortRangeToInt` applied to a `start-end` host port range
string, keeping only the start port (the Go code discards the end and the
error); an unparsable string yields `0`. -/
def parsePortRangeStart (s : String) : Nat :=
  match (s.splitOn "-").head? with
  | some first => first.toNat?.getD 0
  | none => 0

/-- First loop of `getNetworkBindings` from `statechange.go`: walk the
port bindings; a binding whose container port is in the singular
container-port set becomes a network binding, every other binding is
recorded in the host-port map for the port-range pass. -/
def collectSingularBindings (containerPortSet : List Nat)
    (bindings : List PortBinding) :
    List NetworkBinding × List (Nat × List ProtocolBindIP) :=
  bindings.foldl
    (fun acc binding =>
      if containerPortSet.contains binding.containerPort then
        (acc.1 ++ [{ bindIP := some binding.bindIP
                     containerPort := some binding.containerPort
                     hostPort := some binding.hostPort
                     containerPortRange := none
                     hostPortRange := none
                     protocol := binding.protocol }], acc.2)
      else
        (acc.1, addToHostPortMap acc.2 binding.hostPort
          { protocol := binding.protocol, bindIP := binding.bindIP }))
    ([], [])

/-- Second loop of `getNetworkBindings` from `statechange.go`: for each
entry of the container-port-range map, look up the protocol/bind-IP
information recorded for the start of its host port range and emit one
consolidated network binding per entry found. -/
def collectRangeBindings (m : List (Nat × List ProtocolBindIP))
    (containerPortRangeMap : List (String × String)) : List NetworkBinding :=
  containerPortRangeMap.foldl
    (fun acc entry =>
      match lookupHostPortMap m (parsePortRangeStart entry.2) with
      | some vals =>
          acc ++ vals.map (fun v =>
            { bindIP := some v.bindIP
              containerPort := none
              hostPort := none
              containerPortRange := some entry.1
              hostPortRange := some entry.2
              protocol := v.protocol })
      | none => acc)
    []

/-- `getNetworkBindings` from `statechange.go`: the network bindings sent
to the backend as part of the container state change payload. -/
def getNetworkBindings (change : ContainerStateChange) : List NetworkBinding :=
  let pass := collectSingularBindings change.container.containerPortSet change.portBindings
  pass.1 ++ collectRangeBindings pass.2 change.container.containerPortRangeMap

/-- `buildContainerStateChangePayload` from `statechange.go`. Go's return
`(*payload, error)` is modelled as `Except`: `.error` for a non-nil error,
`.ok none` for the `(nil, nil)` unsupported-status return, `.ok (some _)`
for a payload. The dead `stat.String() == "DEAD"` branch (its own TODO
notes `String()` never returns `DEAD`) is omitted. -/
def buildContainerStateChangePayload (change : ContainerStateChange) :
    Except String (Option ContainerStateChangePayload) :=
  if change.containerName == "" then
    .error "container state change has no container name"
  else
    let stat := change.status
    if stat != ContainerStatus.manifestPulled
        && stat != ContainerStatus.stopped
        && stat != ContainerStatus.running then
      .ok none
    else
      let networkBindings := getNetworkBindings change
      if change.container.hasPortRange
          && networkBindings.length > ecsMaxNetworkBindingsLength then
        .error "no. of network bindings is more than the maximum supported no."
      else
        .ok (some
          { containerName := some change.containerName
            runtimeId := if change.runtimeID != "" then some change.runtimeID else none
            reason := if change.reason != "" then some change.reason else none
            imageDigest := if change.imageDigest != "" then some change.imageDigest else none
            status := some stat.backendStatusString
            exitCode := change.exitCode
            networkBindings := networkBindings })

/-- The characters of the scheme `https://` prepended by `AddScheme`
(`httpsPrefix` in `utils.go`). -/
def httpsSchemeChars : List Char := "https://".toList

/-- The characters of the scheme `http://`. -/
def httpSchemeChars : List Char := "http://".toList

/-- The regular expression match of `schemeRegex` in `utils.go`:
`MatchString` with pattern `^(http|https)://` holds exactly when the
string starts with `http://` or with `https://`. Strings are modelled as
character lists so that the prefix tests are structural. -/
def schemeRegexMatches (s : List Char) : Bool :=
  httpSchemeChars.isPrefixOf s || httpsSchemeChars.isPrefixOf s

/-- `AddScheme` from `utils.go`: empty strings returned as-is; strings
already carrying an `http://` or `https://` scheme returned as-is; every
other string gets `https://` prepended. -/
def AddScheme (endpoint : List Char) : List Char :=
  if endpoint == [] then
    endpoint
  else if schemeRegexMatches endpoint then
    endpoint
  else
    httpsSchemeChars ++ endpoint

/-- Modelled from the spec: host resource amounts tracked by the
ResourceLedger (spec section 3/4.2; the ledger implementation is not under
`src/`). The model tracks the CPU-unit and memory-MB dimensions; the
integration tests exercise the memory dimension. -/
structure HostResources where
  cpu : Nat
  mem : Nat
  deriving Repr, DecidableEq

/-- Componentwise sum of host resource amounts. -/
def HostResources.add (a b : HostResources) : HostResources :=
  { cpu := a.cpu + b.cpu, mem := a.mem + b.mem }

/-- Whether a host resource amount fits within a capacity, componentwise. -/
def HostResources.fitsWithin (a cap : HostResources) : Bool :=
  a.cpu ≤ cap.cpu && a.mem ≤ cap.mem

/-- Modelled from the spec: the ResourceLedger / host resource manager
state (spec section 4.2; implementation not under `src/`): total capacity
and a map from task ARN to consumed amounts, modelled as an association
list. -/
structure HostResourceManager where
  capacity : HostResources
  consumed : List (String × HostResources)
  deriving Repr, DecidableEq

/-- Total of all consumed amounts recorded in the ledger. -/
def HostResourceManager.consumedTotal (h : HostResourceManager) : HostResources :=
  h.consumed.foldl (fun acc p => acc.add p.2) { cpu := 0, mem := 0 }

/-- `checkTaskConsumed` of the host resource manager (named after the
accessor used by the integration tests): whether the ledger currently
records the task as consuming resources. -/
def HostResourceManager.checkTaskConsumed (h : HostResourceManager) (arn : String) : Bool :=
  h.consumed.any (fun p => p.1 == arn)

/-- Modelled from the spec: the launch types exempt from host resource
accounting (spec section 4.2). The exempt set is fixed by the integration
test `TestHostResourceManagerLaunchTypeBehavior` in
`src/agent/engine/engine_unix_integ_test.go`, which asserts that a task
with launch type `FARGATE` is never recorded as consuming while tasks with
launch types `EC2`, `EXTERNAL`, `RaNdOmStrInG` and the empty string are
recorded as consuming. -/
def Task.exemptFromAccounting (t : Task) : Bool :=
  t.launchType == "FARGATE"

/-- The host resources required by a task (its CPU and memory
requirements, spec section 3). -/
def taskHostResources (t : Task) : HostResources :=
  { cpu := t.cpu, mem := t.memory }

/-- Modelled from the spec: `TryConsume(taskID, requirements)` of the
ResourceLedger (spec section 4.2): atomically checks whether the
requirements fit within remaining capacity; if so records consumption and
returns true, otherwise returns false and records nothing. An exempt task
bypasses accounting: the call succeeds without recording anything. -/
def HostResourceManager.TryConsume (h : HostResourceManager) (arn : String)
    (req : HostResources) (exempt : Bool) : Bool × HostResourceManager :=
  if exempt then
    (true, h)
  else if (h.consumedTotal.add req).fitsWithin h.capacity then
    (true, { h with consumed := h.consumed ++ [(arn, req)] })
  else
    (false, h)

/-- Modelled from the spec: `Release(taskID)` of the ResourceLedger (spec
section 4.2): idempotently returns the task's consumed resources to the
pool; a no-op for an unknown task ARN. -/
def HostResourceManager.Release (h : HostResourceManager) (arn : String) :
    HostResourceManager :=
  { h with consumed := h.consumed.filter (fun p => p.1 != arn) }

/-- Modelled from the spec: the Engine state relevant to admission (spec
section 4.7): the host resource manager, the FIFO waiting queue (each
entry paired with its enqueue sequence number), the enqueue counter, the
set of admitted (managed) task ARNs, and the task state-change events
synthesized so far (as (task ARN, status) pairs in emission order). -/
structure EngineState where
  hostResourceManager : HostResourceManager
  waitingQueue : List (Task × Nat)
  nextSeq : Nat
  managedTasks : List String
  events : List (String × TaskStatus)
  deriving Repr, DecidableEq

/-- Modelled from the spec: the Engine's admission retry loop (spec
section 4.7): starting from the front of the waiting queue, dequeue and
admit while `TryConsume` succeeds; stop at the first task that does not
fit (strict FIFO with head-of-line blocking). Returns the ledger, the
remaining queue, and the admitted ARNs appended in admission order. -/
def admitFromQueue (h : HostResourceManager) (q : List (Task × Nat))
    (admitted : List String) :
    HostResourceManager × List (Task × Nat) × List String :=
  match q with
  | [] => (h, [], admitted)
  | (t, n) :: rest =>
      let r := h.TryConsume t.arn (taskHostResources t) t.exemptFromAccounting
      if r.1 then
        admitFromQueue r.2 rest (admitted ++ [t.arn])
      else
        (h, (t, n) :: rest, admitted)

/-- Modelled from the spec: `AddTask` for a new task ARN (spec section
4.7): attempt `TryConsume`; on success start the task immediately, on
failure enqueue it at the back of the waiting queue. -/
def EngineState.addTask (s : EngineState) (t : Task) : EngineState :=
  let r := s.hostResourceManager.TryConsume t.arn (taskHostResources t)
    t.exemptFromAccounting
  if r.1 then
    { s with hostResourceManager := r.2, managedTasks := s.managedTasks ++ [t.arn] }
  else
    { s with waitingQueue := s.waitingQueue ++ [(t, s.nextSeq)],
             nextSeq := s.nextSeq + 1 }

/-- Modelled from the spec: external stop of a queued, never-admitted task
(spec section 4.7): remove it from the waiting queue and immediately
synthesize its STOPPED state-change event, without consuming resources or
creating containers. -/
def EngineState.stopQueuedTask (s : EngineState) (arn : String) : EngineState :=
  if s.waitingQueue.any (fun p => p.1.arn == arn) then
    { s with waitingQueue := s.waitingQueue.filter (fun p => p.1.arn != arn),
             events := s.events ++ [(arn, TaskStatus.stopped)] }
  else
    s

/-- Modelled from the spec: a running task stops and its resources are
released (spec sections 4.6 step 6 and 4.7): release the ledger entry,
emit the STOPPED event, then run the admission retry loop on the waiting
queue. -/
def EngineState.releaseTaskResources (s : EngineState) (arn : String) : EngineState :=
  if s.managedTasks.any (fun a => a == arn) then
    let h := s.hostResourceManager.Release arn
    let r := admitFromQueue h s.waitingQueue []
    { s with hostResourceManager := r.1,
             waitingQueue := r.2.1,
             managedTasks := s.managedTasks.filter (fun a => a != arn) ++ r.2.2,
             events := s.events ++ [(arn, TaskStatus.stopped)] }
  else
    s

/-- The Engine operations driving the admission model. -/
inductive EngineOp where
  | add (t : Task)
  | stopQueued (arn : String)
  | releaseRunning (arn : String)
  deriving Repr

/-- One step of the Engine admission model. -/
def EngineState.exec (s : EngineState) : EngineOp → EngineState
  | .add t => s.addTask t
  | .stopQueued arn => s.stopQueuedTask arn
  | .releaseRunning arn => s.releaseTaskResources arn

/-- Invariant of the admission model: the enqueue sequence numbers in the
waiting queue are strictly increasing from front to back, and all are
below the enqueue counter. -/
def queueSeqInvariant (s : EngineState) : Prop :=
  List.Pairwise (fun a b => a < b) (s.waitingQueue.map Prod.snd) ∧
    ∀ n ∈ s.waitingQueue.map Prod.snd, n < s.nextSeq

/-- Modelled from the spec: dependency-condition satisfaction (spec
section 4.4): START requires the dependency's known status to have reached
CREATED; COMPLETE requires it STOPPED; SUCCESS requires it STOPPED with
exit code 0; HEALTHY requires its health check to report healthy. A
dependency naming a container absent from the task is never satisfied. -/
def dependencySatisfied (dep : ContainerDependency) (allContainers : List Container) : Bool :=
  match allContainers.find? (fun c => c.name == dep.containerName) with
  | none => false
  | some d =>
      match dep.condition with
      | .start => d.knownStatus.toNat ≥ ContainerStatus.created.toNat
      | .complete => d.knownStatus == ContainerStatus.stopped
      | .success => d.knownStatus == ContainerStatus.stopped && d.exitCode == some 0
      | .healthy => d.healthy

/-- Modelled from the spec: `DependencyGraph.CanTransition` (spec section
4.4): a container may transition toward a target state iff every declared
dependency is satisfied against current known statuses; a container with
no dependencies is always eligible. -/
def CanTransition (c : Container) (allContainers : List Container) : Bool :=
  c.dependsOn.all (fun dep => dependencySatisfied dep allContainers)

/-- Modelled from the spec: eligibility of a container to progress to a
target status (spec sections 4.4 and 4.6): progression up to
MANIFEST_PULLED is never gated by declared dependencies — all containers
may pull their image manifest independently — while progression beyond
MANIFEST_PULLED requires `CanTransition`. -/
def eligibleToProgress (c : Container) (target : ContainerStatus)
    (allContainers : List Container) : Bool :=
  if target.toNat ≤ ContainerStatus.manifestPulled.toNat then
    true
  else
    CanTransition c allContainers

/-- A concrete running container used to instantiate the theorems below
on explicit inputs. -/
def baseContainer : Container :=
  { name := "A"
    isInternal := false
    knownStatus := .running
    sentStatus := .statusNone
    steadyStateStatus := .running
    imageDigest := "sha256:0123"
    runtimeID := "rid-1"
    exitCode := none
    applyingErrorMsg := none
    portBindings := []
    containerPortSet := []
    containerPortRangeMap := []
    dependsOn := []
    healthy := true
    essential := true }

/-- A concrete running task owning `baseContainer`. -/
def baseTask : Task :=
  { arn := "arn:aws:ecs:task/1"
    isInternal := false
    knownStatus := .running
    sentStatus := .statusNone
    containers := [baseContainer]
    serviceConnectEnabled := false
    networkModeBridge := false
    launchType := "EC2"
    cpu := 10
    memory := 512
    pullStartedAt := 0
    pullStoppedAt := 0
    executionStoppedAt := 0 }

/-- A container requesting a port range and 101 singular ports. -/
def manyPortsContainer : Container :=
  { baseContainer with
    name := "big"
    containerPortSet := List.range 101
    containerPortRangeMap := [("8000-8001", "9000-9001")] }

/-- 101 port bindings, one per port of `manyPortsContainer`'s singular
container-port set. -/
def manyBindings : List PortBinding :=
  (List.range 101).map (fun p =>
    { containerPort := p, hostPort := 10000 + p, bindIP := "0.0.0.0", protocol := "tcp" })

/-- A container state change whose computed network bindings exceed the
backend maximum of 100 while a port range is requested. -/
def bigChange : ContainerStateChange :=
  { taskArn := "arn:aws:ecs:task/big"
    runtimeID := "rid-big"
    containerName := "big"
    status := .running
    imageDigest := ""
    reason := ""
    exitCode := none
    portBindings := manyBindings
    container := manyPortsContainer }

/-- A concrete `EXTERNAL`-launch-type task mirroring the
`TestHostResourceManagerExternalLaunchTypeBehavior` test case (768 MB of
memory against a 1024 MB host). -/
def externalLaunchTask : Task :=
  { baseTask with arn := "IntegTaskArn", launchType := "EXTERNAL", cpu := 0, memory := 768 }

/-- A concrete `FARGATE`-launch-type task mirroring the
`TestHostResourceManagerFargateLaunchTypeBehavior` test case. -/
def fargateLaunchTask : Task :=
  { baseTask with arn := "IntegTaskArn", launchType := "FARGATE", cpu := 0, memory := 768 }

/-- An engine with an empty ledger over the integration tests' host
capacity (1024 MB of memory). -/
def initialEngine : EngineState :=
  { hostResourceManager := { capacity := { cpu := 2048, mem := 1024 }, consumed := [] }
    waitingQueue := []
    nextSeq := 0
    managedTasks := []
    events := [] }

/-- A concrete 512 MB task named `taskArn-0`, as in the trickle-queue
integration test. -/
def trickleTask0 : Task :=
  { baseTask with arn := "taskArn-0", cpu := 0, memory := 512 }

/-- A concrete 512 MB task named `taskArn-1`. -/
def trickleTask1 : Task :=
  { baseTask with arn := "taskArn-1", cpu := 0, memory := 512 }

/-- A concrete 512 MB task named `taskArn-2`. -/
def trickleTask2 : Task :=
  { baseTask with arn := "taskArn-2", cpu := 0, memory := 512 }

/-- A ledger over the 1024 MB host with 512 MB already consumed by
`taskArn-0`. -/
def halfConsumedLedger : HostResourceManager :=
  { capacity := { cpu := 2048, mem := 1024 }
    consumed := [("taskArn-0", { cpu := 0, mem := 512 })] }

/-- An engine in which `taskArn-1` and `taskArn-2` wait behind a half
consumed ledger. -/
def queuedEngine : EngineState :=
  { hostResourceManager := halfConsumedLedger
    waitingQueue := [(trickleTask1, 1), (trickleTask2, 2)]
    nextSeq := 3
    managedTasks := ["taskArn-0"]
    events := [] }

/-- The container `first` of the manifest-pulled ordering integration
test: running, no dependencies. -/
def firstContainer : Container :=
  { baseContainer with name := "first" }

/-- The container `second` of the manifest-pulled ordering integration
test: depends on `first` with condition COMPLETE, currently at
MANIFEST_PULLED with a resolved digest, nothing sent yet. -/
def secondContainer : Container :=
  { baseContainer with
    name := "second"
    knownStatus := .manifestPulled
    imageDigest := "sha256:4567"
    dependsOn := [{ containerName := "first", condition := .complete }] }

/-- The task owning `firstContainer` and `secondContainer`. -/
def orderingTask : Task :=
  { baseTask with arn := "test-arn", containers := [firstContainer, secondContainer] }

/-- C7: state-change events for internal tasks and internal containers
are suppressed as a normal filtering outcome: for every task with the
internal flag set, `NewTaskStateChangeEvent` returns an
`ErrShouldNotSendEvent` error (and no event) regardless of the task's
statuses, and for every container whose `IsInternal()` is true,
`NewContainerStateChangeEvent` returns an `ErrShouldNotSendEvent` error
(and no event) regardless of the container's statuses. -/
theorem internal_entities_suppress_state_change_events :
    (∀ (t : Task) (reason : String), t.isInternal = true →
      NewTaskStateChangeEvent t reason =
        .error (.shouldNotSend t.arn)) ∧
    (∀ (t : Task) (c : Container) (reason : String), c.isInternal = true →
      NewContainerStateChangeEvent t c reason =
        .error (.shouldNotSend c.name)) := by
  constructor
  · intro t reason h
    simp [NewTaskStateChangeEvent, h]
  · intro t c reason h
    simp [NewContainerStateChangeEvent, newUncheckedContainerStateChangeEvent, h]

/-- Witness for C7: an internal task and an internal container are both
suppressed at a concrete input. -/
theorem internal_entities_suppress_state_change_events_witness :
    NewTaskStateChangeEvent { baseTask with isInternal := true } "" =
      .error (.shouldNotSend "arn:aws:ecs:task/1") ∧
    NewContainerStateChangeEvent baseTask { baseContainer with isInternal := true } "" =
      .error (.shouldNotSend "A") :=
  ⟨internal_entities_suppress_state_change_events.1
      { baseTask with isInternal := true } "" rfl,
   internal_entities_suppress_state_change_events.2
      baseTask { baseContainer with isInternal := true } "" rfl⟩

/-- C8: the externally reported container status collapses to NONE,
MANIFEST_PULLED, RUNNING, STOPPED: `containerStatusChangeStatus` returns
RUNNING when the known status equals the steady-state status, else
MANIFEST_PULLED when the known status is MANIFEST_PULLED, else STOPPED
when the known status is STOPPED, and NONE in every other case (in
particular PULLED and CREATED map to NONE). -/
theorem containerStatusChangeStatus_collapses_statuses :
    ∀ (knownStatus steadyStateStatus : ContainerStatus),
      containerStatusChangeStatus knownStatus steadyStateStatus =
        (if knownStatus = steadyStateStatus then ContainerStatus.running
         else if knownStatus = ContainerStatus.manifestPulled then
           ContainerStatus.manifestPulled
         else if knownStatus = ContainerStatus.stopped then ContainerStatus.stopped
         else ContainerStatus.statusNone) := by
  intro k s
  cases k <;> cases s <;> rfl

/-- C1: a state-change event for a given status value is produced at most
once: `NewTaskStateChangeEvent` returns an error (and no event) whenever
the task's sent status is greater than or equal to its known status, and
`NewContainerStateChangeEvent` returns an error (and no event) whenever
the container's sent status is greater than or equal to its known
status. -/
theorem stateChangeEvent_not_created_when_status_already_sent :
    (∀ (t : Task) (reason : String),
        t.knownStatus.toNat ≤ t.sentStatus.toNat →
        isErr (NewTaskStateChangeEvent t reason) = true) ∧
    (∀ (t : Task) (c : Container) (reason : String),
        c.knownStatus.toNat ≤ c.sentStatus.toNat →
        isErr (NewContainerStateChangeEvent t c reason) = true) := by
  constructor
  · intro t reason h
    simp only [NewTaskStateChangeEvent]
    repeat' split
    all_goals simp [isErr]
  · intro t c reason h
    simp only [NewContainerStateChangeEvent]
    cases hu : newUncheckedContainerStateChangeEvent t c reason with
    | error e => simp [isErr]
    | ok ev =>
        simp only
        repeat' split
        all_goals simp [isErr]

/-- Witness for C1: a task and a container whose RUNNING status has
already been sent produce no further event for it. -/
theorem stateChangeEvent_not_created_when_status_already_sent_witness :
    isErr (NewTaskStateChangeEvent { baseTask with sentStatus := .running } "") = true ∧
    isErr (NewContainerStateChangeEvent baseTask
      { baseContainer with sentStatus := .running } "") = true :=
  ⟨stateChangeEvent_not_created_when_status_already_sent.1
      { baseTask with sentStatus := .running } "" (by decide),
   stateChangeEvent_not_created_when_status_already_sent.2
      baseTask { baseContainer with sentStatus := .running } "" (by decide)⟩

/-- Helper: `isShouldNotSendErr` on a success result. -/
theorem isShouldNotSendErr_ok {α : Type} (a : α) :
    isShouldNotSendErr (Except.ok a) = false := rfl

/-- Helper: `isShouldNotSendErr` on an `ErrShouldNotSendEvent` error. -/
theorem isShouldNotSendErr_shouldNotSend {α : Type} (r : String) :
    isShouldNotSendErr
      (Except.error (StateChangeError.shouldNotSend r) : Except StateChangeError α) = true := rfl

/-- C3: a MANIFEST_PULLED state-change event is created only when a digest
was actually resolved: for a non-internal task at known status
MANIFEST_PULLED whose MANIFEST_PULLED status was not already sent,
`NewTaskStateChangeEvent` returns an `ErrShouldNotSendEvent` error exactly
when no container of the task has a resolved image digest; for a
non-internal container at known status MANIFEST_PULLED (outside the
bridge-mode service-connect pause-container path) whose MANIFEST_PULLED
status was not already sent, `NewContainerStateChangeEvent` returns an
`ErrShouldNotSendEvent` error exactly when that container's digest was not
resolved. -/
theorem manifest_pulled_event_requires_resolved_digest :
    (∀ (t : Task) (reason : String),
        t.knownStatus = TaskStatus.manifestPulled →
        t.isInternal = false →
        t.sentStatus.toNat < t.knownStatus.toNat →
        isShouldNotSendErr (NewTaskStateChangeEvent t reason) =
          !t.hasAContainerWithResolvedDigest) ∧
    (∀ (t : Task) (c : Container) (reason : String),
        c.knownStatus = ContainerStatus.manifestPulled →
        c.isInternal = false →
        (t.serviceConnectEnabled && t.networkModeBridge) = false →
        c.sentStatus.toNat < c.knownStatus.toNat →
        isShouldNotSendErr (NewContainerStateChangeEvent t c reason) =
          !c.digestResolved) := by
  constructor
  · intro t reason hk hi hs
    rw [hk] at hs
    cases hd : t.hasAContainerWithResolvedDigest <;>
      simp [NewTaskStateChangeEvent, hk, hi, hd, isShouldNotSendErr,
        TaskStatus.backendRecognized, Nat.not_le.mpr hs, apply_ite]
  · intro t c reason hk hi hsc hs
    rw [hk] at hs
    cases hd : c.digestResolved <;>
      simp [NewContainerStateChangeEvent, newUncheckedContainerStateChangeEvent,
        hk, hi, hsc, hd, Nat.not_le.mpr hs,
        apply_ite (@isShouldNotSendErr ContainerStateChange),
        isShouldNotSendErr_ok, isShouldNotSendErr_shouldNotSend]

/-- Witness for C3: at a concrete input, a MANIFEST_PULLED task with no
resolved digest is suppressed and a MANIFEST_PULLED container with a
resolved digest is not. -/
theorem manifest_pulled_event_requires_resolved_digest_witness :
    isShouldNotSendErr (NewTaskStateChangeEvent
      { baseTask with knownStatus := .manifestPulled
                      containers := [{ baseContainer with imageDigest := "" }] } "") =
      !Task.hasAContainerWithResolvedDigest
        { baseTask with knownStatus := .manifestPulled
                        containers := [{ baseContainer with imageDigest := "" }] } ∧
    isShouldNotSendErr (NewContainerStateChangeEvent baseTask
      { baseContainer with knownStatus := .manifestPulled } "") =
      !Container.digestResolved { baseContainer with knownStatus := .manifestPulled } :=
  ⟨manifest_pulled_event_requires_resolved_digest.1
      { baseTask with knownStatus := .manifestPulled
                      containers := [{ baseContainer with imageDigest := "" }] } ""
      rfl rfl (by decide),
   manifest_pulled_event_requires_resolved_digest.2 baseTask
      { baseContainer with knownStatus := .manifestPulled } ""
      rfl rfl (by decide) (by decide)⟩

/-- Helper: a list is a prefix of itself followed by anything, in the
boolean sense used by `schemeRegexMatches`. -/
theorem isPrefixOf_append_self (l x : List Char) : l.isPrefixOf (l ++ x) = true := by
  induction l with
  | nil => simp [List.isPrefixOf]
  | cons a t ih => simp [List.isPrefixOf, ih]

/-- C10: `AddScheme` returns the empty string unchanged, returns any
string that already starts with `http://` or `https://` unchanged, and
prepends `https://` to every other string; consequently it is idempotent:
for every string s, `AddScheme (AddScheme s) = AddScheme s`. -/
theorem addScheme_cases_and_idempotent :
    (∀ s : List Char,
        AddScheme s =
          (if s = [] then s
           else if schemeRegexMatches s = true then s
           else httpsSchemeChars ++ s)) ∧
    (∀ s : List Char, AddScheme (AddScheme s) = AddScheme s) := by
  have hcases : ∀ s : List Char,
      AddScheme s =
        (if s = [] then s
         else if schemeRegexMatches s = true then s
         else httpsSchemeChars ++ s) := by
    intro s
    simp [AddScheme]
  refine ⟨hcases, ?_⟩
  intro s
  by_cases h0 : s = []
  · subst h0; rfl
  · by_cases h1 : schemeRegexMatches s = true
    · have h2 : AddScheme s = s := by rw [hcases s, if_neg h0, if_pos h1]
      rw [h2, h2]
    · have h2 : AddScheme s = httpsSchemeChars ++ s := by
        rw [hcases s, if_neg h0, if_neg h1]
      have hne : httpsSchemeChars ++ s ≠ [] := by simp [httpsSchemeChars]
      have hsch : schemeRegexMatches (httpsSchemeChars ++ s) = true := by
        simp [schemeRegexMatches, isPrefixOf_append_self]
      rw [h2, hcases (httpsSchemeChars ++ s), if_neg hne, if_pos hsch]

/-- C9: when building the backend payload for a container state change
with a non-empty container name and a backend-supported status, if the
container requested at least one container port range and the computed
network bindings number more than 100, `buildContainerStateChangePayload`
returns an error and no payload; otherwise the computed network bindings
are included in the returned payload. -/
theorem container_payload_network_bindings_limit :
    ∀ (change : ContainerStateChange),
      change.containerName ≠ "" →
      (change.status = ContainerStatus.manifestPulled ∨
       change.status = ContainerStatus.stopped ∨
       change.status = ContainerStatus.running) →
      (change.container.hasPortRange = true →
        (getNetworkBindings change).length > ecsMaxNetworkBindingsLength →
        isErr (buildContainerStateChangePayload change) = true) ∧
      ((change.container.hasPortRange = true →
          (getNetworkBindings change).length ≤ ecsMaxNetworkBindingsLength) →
        ∃ pl, buildContainerStateChangePayload change = .ok (some pl) ∧
          pl.networkBindings = getNetworkBindings change) := by
  intro change h1 h2
  have hname : ¬((change.containerName == "") = true) := by simp [h1]
  have hstat : ¬((change.status != ContainerStatus.manifestPulled
      && change.status != ContainerStatus.stopped
      && change.status != ContainerStatus.running) = true) := by
    rcases h2 with h|h|h <;> simp [h]
  constructor
  · intro hpr hlen
    have hcond : (change.container.hasPortRange
        && decide ((getNetworkBindings change).length > ecsMaxNetworkBindingsLength)) = true := by
      simp [hpr, hlen]
    simp [buildContainerStateChangePayload, hname, hstat, hcond, isErr]
  · intro hle
    have hcond : (change.container.hasPortRange
        && decide ((getNetworkBindings change).length > ecsMaxNetworkBindingsLength)) = false := by
      cases hp : change.container.hasPortRange
      · simp
      · simp [Nat.not_lt.mpr (hle hp)]
    refine ⟨{ containerName := some change.containerName
              runtimeId := if change.runtimeID != "" then some change.runtimeID else none
              reason := if change.reason != "" then some change.reason else none
              imageDigest := if change.imageDigest != "" then some change.imageDigest else none
              status := some change.status.backendStatusString
              exitCode := change.exitCode
              networkBindings := getNetworkBindings change }, ?_, rfl⟩
    simp [buildContainerStateChangePayload, hname, hstat, hcond]

set_option maxRecDepth 10000 in
/-- Witness for C9: `bigChange` requests a port range and computes 101
network bindings, so its payload construction fails. -/
theorem container_payload_network_bindings_limit_witness :
    isErr (buildContainerStateChangePayload bigChange) = true :=
  (container_payload_network_bindings_limit bigChange (by decide)
      (Or.inr (Or.inr rfl))).1 (by decide) (by decide)

/-- Counterexample for C2: a task with the externally-provisioned
launch type `EXTERNAL` does not bypass host resource accounting — once
admitted, the host resource manager reports it as consuming, exactly as
the integration test `TestHostResourceManagerExternalLaunchTypeBehavior`
asserts (`non fargate task resources should be consumed`). -/
theorem external_launch_type_task_is_accounted :
    externalLaunchTask.launchType = "EXTERNAL" ∧
    externalLaunchTask.exemptFromAccounting = false ∧
    (initialEngine.exec (.add externalLaunchTask)).managedTasks = ["IntegTaskArn"] ∧
    (initialEngine.exec (.add externalLaunchTask)).hostResourceManager.checkTaskConsumed
      "IntegTaskArn" = true := by
  decide

/-- C2 (amended): every task whose launch type is FARGATE bypasses host
resource accounting entirely: `TryConsume` always succeeds for it without
recording consumption, `Release` is a no-op for it, and after admission
the host resource manager's consumption report for it is unchanged (in
particular it is never reported as consuming). Launch types other than
FARGATE — including the EXTERNAL launch type — are accounted. -/
theorem fargate_launch_type_bypasses_accounting :
    ∀ (s : EngineState) (t : Task) (req : HostResources),
      t.launchType = "FARGATE" →
      s.hostResourceManager.TryConsume t.arn req t.exemptFromAccounting
        = (true, s.hostResourceManager) ∧
      (s.hostResourceManager.checkTaskConsumed t.arn = false →
        s.hostResourceManager.Release t.arn = s.hostResourceManager) ∧
      (s.exec (.add t)).hostResourceManager = s.hostResourceManager ∧
      (s.exec (.add t)).managedTasks = s.managedTasks ++ [t.arn] ∧
      (s.exec (.add t)).hostResourceManager.checkTaskConsumed t.arn
        = s.hostResourceManager.checkTaskConsumed t.arn := by
  intro s t req hlt
  have hex : t.exemptFromAccounting = true := by
    simp [Task.exemptFromAccounting, hlt]
  refine ⟨?_, ?_, ?_, ?_, ?_⟩
  · simp [HostResourceManager.TryConsume, hex]
  · intro hnc
    have hall : ∀ p ∈ s.hostResourceManager.consumed, (p.1 != t.arn) = true := by
      intro p hp
      have hne := (List.any_eq_false.mp hnc) p hp
      simpa using hne
    simp [HostResourceManager.Release, List.filter_eq_self.mpr hall]
  · simp [EngineState.exec, EngineState.addTask, HostResourceManager.TryConsume, hex]
  · simp [EngineState.exec, EngineState.addTask, HostResourceManager.TryConsume, hex]
  · simp [EngineState.exec, EngineState.addTask, HostResourceManager.TryConsume, hex]

/-- Witness for C2 (amended): the concrete FARGATE task of the
launch-type integration test bypasses accounting on the 1024 MB host. -/
theorem fargate_launch_type_bypasses_accounting_witness :
    initialEngine.hostResourceManager.TryConsume "IntegTaskArn"
      { cpu := 0, mem := 768 } fargateLaunchTask.exemptFromAccounting
      = (true, initialEngine.hostResourceManager) ∧
    initialEngine.hostResourceManager.Release "IntegTaskArn"
      = initialEngine.hostResourceManager ∧
    (initialEngine.exec (.add fargateLaunchTask)).hostResourceManager.checkTaskConsumed
      "IntegTaskArn" = false :=
  ⟨(fargate_launch_type_bypasses_accounting initialEngine fargateLaunchTask
      { cpu := 0, mem := 768 } rfl).1,
   (fargate_launch_type_bypasses_accounting initialEngine fargateLaunchTask
      { cpu := 0, mem := 768 } rfl).2.1 (by decide),
   ((fargate_launch_type_bypasses_accounting initialEngine fargateLaunchTask
      { cpu := 0, mem := 768 } rfl).2.2.2.2).trans (by decide)⟩

/-- C4: reaching MANIFEST_PULLED is not gated by declared dependencies:
a container whose COMPLETE dependency on another container is still
unsatisfied is nevertheless eligible to progress to MANIFEST_PULLED, and
at known status MANIFEST_PULLED with a resolved digest it emits a
MANIFEST_PULLED state-change event, while remaining blocked from
progressing to CREATED until the dependency is satisfied (once the
depended-on container stops, it becomes eligible). -/
theorem manifest_pulled_not_gated_by_dependency_ordering :
    ∀ (task : Task) (first second : Container),
      second.dependsOn = [{ containerName := first.name, condition := .complete }] →
      first.knownStatus = ContainerStatus.running →
      second.knownStatus = ContainerStatus.manifestPulled →
      second.sentStatus = ContainerStatus.statusNone →
      second.steadyStateStatus = ContainerStatus.running →
      second.digestResolved = true →
      second.isInternal = false →
      second.applyingErrorMsg = none →
      (task.serviceConnectEnabled && task.networkModeBridge) = false →
      eligibleToProgress second ContainerStatus.manifestPulled [first, second] = true ∧
      eligibleToProgress second ContainerStatus.created [first, second] = false ∧
      NewContainerStateChangeEvent task second "" =
        .ok { taskArn := task.arn
              containerName := second.name
              runtimeID := second.runtimeID
              status := ContainerStatus.manifestPulled
              exitCode := second.exitCode
              portBindings := second.portBindings
              imageDigest := second.imageDigest
              reason := ""
              container := second } ∧
      eligibleToProgress second ContainerStatus.created
        [{ first with knownStatus := ContainerStatus.stopped }, second] = true := by
  intro task first second hdep hfr hk hsent hsteady hd hint happ hsc
  refine ⟨?_, ?_, ?_, ?_⟩
  · simp [eligibleToProgress, ContainerStatus.toNat]
  · simp [eligibleToProgress, ContainerStatus.toNat, CanTransition, dependencySatisfied,
      hdep, hfr, List.find?]
  · simp [NewContainerStateChangeEvent, newUncheckedContainerStateChangeEvent,
      hk, hsent, hsteady, hd, hint, happ, hsc, containerStatusChangeStatus,
      ContainerStatus.toNat]
  · simp [eligibleToProgress, ContainerStatus.toNat, CanTransition, dependencySatisfied,
      hdep, List.find?]

/-- Witness for C4: the concrete `first`/`second` containers of the
manifest-pulled ordering integration test. -/
theorem manifest_pulled_not_gated_by_dependency_ordering_witness :
    eligibleToProgress secondContainer ContainerStatus.manifestPulled
      [firstContainer, secondContainer] = true ∧
    eligibleToProgress secondContainer ContainerStatus.created
      [firstContainer, secondContainer] = false ∧
    NewContainerStateChangeEvent orderingTask secondContainer "" =
      .ok { taskArn := "test-arn"
            containerName := "second"
            runtimeID := "rid-1"
            status := ContainerStatus.manifestPulled
            exitCode := none
            portBindings := []
            imageDigest := "sha256:4567"
            reason := ""
            container := secondContainer } ∧
    eligibleToProgress secondContainer ContainerStatus.created
      [{ firstContainer with knownStatus := ContainerStatus.stopped },
        secondContainer] = true :=
  manifest_pulled_not_gated_by_dependency_ordering orderingTask firstContainer
    secondContainer rfl rfl rfl rfl rfl (by decide) rfl rfl (by decide)

/-- Helper: the queue left by the admission retry loop is a suffix of the
input queue (the loop only ever removes entries from the front). -/
theorem admitFromQueue_suffix :
    ∀ (q : List (Task × Nat)) (h : HostResourceManager) (a : List String),
      (admitFromQueue h q a).2.1 <:+ q := by
  intro q
  induction q with
  | nil => intro h a; simp [admitFromQueue]
  | cons e rest ih =>
      intro h a
      obtain ⟨t, n⟩ := e
      simp only [admitFromQueue]
      split
      · exact (ih _ _).trans (List.suffix_cons (t, n) rest)
      · exact List.suffix_refl _

/-- C5: FIFO admission of waiting tasks. Every engine operation preserves
the queue-order invariant (enqueue sequence numbers strictly increase from
front to back and stay below the enqueue counter); under that invariant
the head of the waiting queue is always the earliest-enqueued
still-waiting task; and when, on a release, the freed capacity admits the
front task A but not the next task B, the admission loop admits exactly A
and leaves B at the head of the queue. -/
theorem waiting_queue_fifo_admission :
    (∀ (s : EngineState) (op : EngineOp),
        queueSeqInvariant s → queueSeqInvariant (s.exec op)) ∧
    (∀ (s : EngineState), queueSeqInvariant s →
        ∀ e ∈ s.waitingQueue, ∀ h₀, s.waitingQueue.head? = some h₀ → h₀.2 ≤ e.2) ∧
    (∀ (h h₁ : HostResourceManager) (A B : Task) (i j : Nat)
        (rest : List (Task × Nat)),
        h.TryConsume A.arn (taskHostResources A) A.exemptFromAccounting = (true, h₁) →
        (h₁.TryConsume B.arn (taskHostResources B) B.exemptFromAccounting).1 = false →
        admitFromQueue h ((A, i) :: (B, j) :: rest) [] =
          (h₁, (B, j) :: rest, [A.arn])) := by
  refine ⟨?_, ?_, ?_⟩
  · intro s op hinv
    obtain ⟨hpw, hbd⟩ := hinv
    have sublistCase :
        ∀ (q : List (Task × Nat)), q.Sublist s.waitingQueue →
          List.Pairwise (fun a b => a < b) (q.map Prod.snd) ∧
            ∀ n ∈ q.map Prod.snd, n < s.nextSeq := by
      intro q hq
      have hmap := hq.map Prod.snd
      exact ⟨hpw.sublist hmap, fun n hn => hbd n (hmap.subset hn)⟩
    cases op with
    | add t =>
        simp only [EngineState.exec, EngineState.addTask]
        split
        · exact ⟨hpw, hbd⟩
        · constructor
          · rw [List.map_append, List.pairwise_append]
            refine ⟨hpw, by simp, ?_⟩
            intro a ha b hb
            simp only [List.map_cons, List.map_nil, List.mem_singleton] at hb
            subst hb
            exact hbd a ha
          · intro n hn
            rw [List.map_append, List.mem_append] at hn
            rcases hn with hn | hn
            · exact Nat.lt_trans (hbd n hn) (Nat.lt_succ_self _)
            · simp only [List.map_cons, List.map_nil, List.mem_singleton] at hn
              subst hn
              exact Nat.lt_succ_self _
    | stopQueued arn =>
        simp only [EngineState.exec, EngineState.stopQueuedTask]
        split
        · exact sublistCase _ (List.filter_sublist _)
        · exact ⟨hpw, hbd⟩
    | releaseRunning arn =>
        simp only [EngineState.exec, EngineState.releaseTaskResources]
        split
        · exact sublistCase _ (admitFromQueue_suffix _ _ _).sublist
        · exact ⟨hpw, hbd⟩
  · intro s hinv e he h₀ hh
    obtain ⟨hpw, _⟩ := hinv
    cases hq : s.waitingQueue with
    | nil => rw [hq] at he; simp at he
    | cons a tail =>
        rw [hq] at hh he
        simp only [List.head?_cons, Option.some.injEq] at hh
        subst hh
        rw [hq, List.map_cons, List.pairwise_cons] at hpw
        rcases List.mem_cons.mp he with he | he
        · subst he; exact Nat.le_refl _
        · exact Nat.le_of_lt (hpw.1 e.2 (List.mem_map_of_mem Prod.snd he))
  · intro h h₁ A B i j rest h1 h2
    simp [admitFromQueue, h1, h2]

/-- Witness for C5: on the 1024 MB host half consumed by `taskArn-0`,
freeing nothing, the admission loop admits the earlier-enqueued
`taskArn-1` and leaves `taskArn-2` at the head of the queue. -/
theorem waiting_queue_fifo_admission_witness :
    admitFromQueue halfConsumedLedger [(trickleTask1, 1), (trickleTask2, 2)] [] =
      ({ capacity := { cpu := 2048, mem := 1024 }
         consumed := [("taskArn-0", { cpu := 0, mem := 512 }),
                      ("taskArn-1", { cpu := 0, mem := 512 })] },
       [(trickleTask2, 2)], ["taskArn-1"]) :=
  waiting_queue_fifo_admission.2.2 halfConsumedLedger
    { capacity := { cpu := 2048, mem := 1024 }
      consumed := [("taskArn-0", { cpu := 0, mem := 512 }),
                   ("taskArn-1", { cpu := 0, mem := 512 })] }
    trickleTask1 trickleTask2 1 2 [] (by decide) (by decide)

/-- C6: externally stopping a task that is still waiting in the admission
queue immediately synthesizes its STOPPED state-change event and leaves
everything else unchanged: the host resource ledger (so the task is never
recorded as consuming), the set of running tasks, and the enqueue counter
are untouched, the stopped task is removed from the queue (the remaining
entries keep their relative order, being a filter of the original queue),
and no entry for the task remains queued. -/
theorem stop_of_queued_task_immediate_and_frame :
    ∀ (s : EngineState) (arn : String),
      s.waitingQueue.any (fun p => p.1.arn == arn) = true →
      (s.stopQueuedTask arn).events = s.events ++ [(arn, TaskStatus.stopped)] ∧
      (s.stopQueuedTask arn).hostResourceManager = s.hostResourceManager ∧
      (s.stopQueuedTask arn).managedTasks = s.managedTasks ∧
      (s.stopQueuedTask arn).nextSeq = s.nextSeq ∧
      (s.stopQueuedTask arn).waitingQueue =
        s.waitingQueue.filter (fun p => p.1.arn != arn) ∧
      (s.stopQueuedTask arn).waitingQueue.any (fun p => p.1.arn == arn) = false ∧
      (s.hostResourceManager.checkTaskConsumed arn = false →
        (s.stopQueuedTask arn).hostResourceManager.checkTaskConsumed arn = false) := by
  intro s arn h
  refine ⟨?_, ?_, ?_, ?_, ?_, ?_, ?_⟩
  · simp [EngineState.stopQueuedTask, h]
  · simp [EngineState.stopQueuedTask, h]
  · simp [EngineState.stopQueuedTask, h]
  · simp [EngineState.stopQueuedTask, h]
  · simp [EngineState.stopQueuedTask, h]
  · simp only [EngineState.stopQueuedTask, h, if_pos]
    rw [List.any_eq_false]
    intro x hx
    have hbne := (List.mem_filter.mp hx).2
    simp only [bne_iff_ne, ne_eq] at hbne
    simp [hbne]
  · intro hnc
    simp [EngineState.stopQueuedTask, h, hnc]

/-- Witness for C6: stopping the queued `taskArn-2` in the engine where it
waits behind a half consumed ledger. -/
theorem stop_of_queued_task_immediate_and_frame_witness :
    (queuedEngine.stopQueuedTask "taskArn-2").events =
      [("taskArn-2", TaskStatus.stopped)] ∧
    (queuedEngine.stopQueuedTask "taskArn-2").hostResourceManager = halfConsumedLedger ∧
    (queuedEngine.stopQueuedTask "taskArn-2").managedTasks = ["taskArn-0"] :=
  ⟨(stop_of_queued_task_immediate_and_frame queuedEngine "taskArn-2" (by decide)).1,
   (stop_of_queued_task_immediate_and_frame queuedEngine "taskArn-2" (by decide)).2.1,
   (stop_of_queued_task_immediate_and_frame queuedEngine "taskArn-2" (by decide)).2.2.1⟩

end EcsAgent
